import Mathlib

/-!
Shallow embedding of the stop-killing-games-monitor repository.

Timestamps are modelled in milliseconds as integers; JavaScript numbers
produced by divisions are modelled as rationals.  Network effects are
abstracted by small environment records recording whether each HTTP call
succeeded.  Every definition below transcribes a named function of the
source (the file and line range is given in its doc comment).
-/

namespace SKG

/-! ## Collector and normalization (src/index.js, runMonitor lines 17-66) -/

/-- Payload of the counter source response, as read by runMonitor. -/
structure ProgressData where
  signatureCount : Int
  goal : Int
deriving Repr, DecidableEq

/-- Fetch stage of runMonitor (src/index.js lines 17-22): the only check
performed on the counter source is response.ok; the payload values are
never validated. -/
def fetchStage (respOk : Bool) (payload : ProgressData) : Except String ProgressData :=
  if respOk then .ok payload else .error "Progress API failed"

/-- Deadline-derived required-pace figures (src/index.js lines 49-57). -/
structure DeadlineStats where
  days_remaining : Int
  required_per_week : Option ℚ
  required_per_day : Option ℚ
  required_per_hour : Option ℚ
  required_per_minute : Option ℚ
  required_per_second : Option ℚ
deriving Repr, DecidableEq

/-- deadlineStats computation of runMonitor (src/index.js lines 43-57).
timeRemaining is deadline minus now in milliseconds; each unit count is
Math.floor of the millisecond remainder divided by the unit length, which
for the positive literal divisors is integer floor division.  Note that
required_per_week is (remaining / daysLeft) * 7, derived from the day
unit, not from a week-floored remainder. -/
def computeDeadlineStats (remaining timeRemaining : Int) : DeadlineStats :=
  let daysLeft : Int := timeRemaining / (1000 * 60 * 60 * 24)
  let hoursLeft : Int := timeRemaining / (1000 * 60 * 60)
  let minutesLeft : Int := timeRemaining / (1000 * 60)
  let secondsLeft : Int := timeRemaining / 1000
  { days_remaining := daysLeft
    required_per_week :=
      if daysLeft > 0 then some (((remaining : ℚ) / (daysLeft : ℚ)) * 7) else none
    required_per_day :=
      if daysLeft > 0 then some ((remaining : ℚ) / (daysLeft : ℚ)) else none
    required_per_hour :=
      if hoursLeft > 0 then some ((remaining : ℚ) / (hoursLeft : ℚ)) else none
    required_per_minute :=
      if minutesLeft > 0 then some ((remaining : ℚ) / (minutesLeft : ℚ)) else none
    required_per_second :=
      if secondsLeft > 0 then some ((remaining : ℚ) / (secondsLeft : ℚ)) else none }

/-- Wrapping of the deadline branch (src/index.js lines 41-58): when the
description source gave no deadline, deadlineStats stays empty and no
required-pace field is present in the stored record. -/
def mkDeadlineStats (deadline : Option Int) (now remaining : Int) : Option DeadlineStats :=
  deadline.map (fun d => computeDeadlineStats remaining (d - now))

/-- The normalized statsData record built by runMonitor
(src/index.js lines 60-66). -/
structure StatsData where
  signatures : Int
  goal : Int
  progress_percent : ℚ
  deadlineStats : Option DeadlineStats
deriving Repr, DecidableEq

/-- statsData normalization (src/index.js lines 37-66): the payload fields
are copied verbatim, with no range check on count or goal. -/
def mkStatsData (payload : ProgressData) (deadline : Option Int) (now : Int) : StatsData :=
  { signatures := payload.signatureCount
    goal := payload.goal
    progress_percent := ((payload.signatureCount : ℚ) / (payload.goal : ℚ)) * 100
    deadlineStats := mkDeadlineStats deadline now (payload.goal - payload.signatureCount) }

/-- Second, clearly named definition following the claim wording for C3:
each required-pace figure is remaining divided by the remaining time
floored to that unit, undefined when that floor is non-positive. -/
def specRequiredPerUnit (msPerUnit remaining timeRemaining : Int) : Option ℚ :=
  let unitsLeft : Int := timeRemaining / msPerUnit
  if unitsLeft > 0 then some ((remaining : ℚ) / (unitsLeft : ℚ)) else none

/-! ## Rate and trend engine (src/unnamed/part_001, calculateRatesAndPerformance
lines 75-166) -/

/-- One row of the eci_data history as read back for rate computation. -/
structure Row where
  signatures : Int
  timestamp : Int
deriving Repr, DecidableEq, Inhabited

/-- Result record of calculateRatesAndPerformance. -/
structure Rates where
  actual_per_minute : Option ℚ
  actual_per_hour : Option ℚ
  actual_per_day : Option ℚ
  actual_per_week : Option ℚ
  on_track_daily : Option Bool
  on_track_hourly : Option Bool
  velocity_trend : String
deriving Repr, DecidableEq

/-- The all-null initial rates object (src/unnamed/part_001 lines 85-93). -/
def baseRates : Rates :=
  { actual_per_minute := none
    actual_per_hour := none
    actual_per_day := none
    actual_per_week := none
    on_track_daily := none
    on_track_hourly := none
    velocity_trend := "unknown" }

/-- On-track guard (src/unnamed/part_001 lines 119-125): the JavaScript
truthiness test requiredPerDay && rates.actual_per_day only assigns the
boolean when both operands are non-null and non-zero. -/
def onTrackFlag (required actual : Option ℚ) : Option Bool :=
  match required, actual with
  | some req, some act => if req ≠ 0 ∧ act ≠ 0 then some (decide (act ≥ req)) else none
  | _, _ => none

/-- Hourly rate of a sub-window from its first and last row
(src/unnamed/part_001 lines 137-140). -/
def windowRate (l : List Row) : ℚ :=
  match l with
  | [] => 0
  | r :: rs =>
    let last := (r :: rs).getLast (List.cons_ne_nil r rs)
    ((last.signatures - r.signatures : Int) : ℚ) /
      (((last.timestamp - r.timestamp : Int) : ℚ) / (1000 * 60 * 60))

/-- Trend classification thresholds (src/unnamed/part_001 lines 142-148).
The JavaScript literals 1.1 and 0.9 are the rationals 11/10 and 9/10. -/
def classifyTrend (recentRate previousRate : ℚ) : String :=
  if recentRate > previousRate * (11 / 10) then "accelerating"
  else if recentRate < previousRate * (9 / 10) then "slowing"
  else "steady"

/-- Filter selecting rows of the last 24 hours
(src/unnamed/part_001 line 129). -/
def last24hOf (now : Int) (rows : List Row) : List Row :=
  rows.filter (fun r => decide (r.timestamp ≥ now - 24 * 60 * 60 * 1000))

/-- Filter selecting rows of the preceding 24-hour window
(src/unnamed/part_001 lines 130-134). -/
def prev24hOf (now : Int) (rows : List Row) : List Row :=
  rows.filter (fun r =>
    decide (now - 48 * 60 * 60 * 1000 ≤ r.timestamp ∧ r.timestamp < now - 24 * 60 * 60 * 1000))

/-- calculateRatesAndPerformance (src/unnamed/part_001 lines 75-153).
rows is the seven-day window ordered by timestamp ascending; now is the
clock reading used by the 24-hour sub-window filters.  All four actual
rates are guarded by the single timeDiffMinutes > 0 test of the source;
the velocity trend block requires at least four rows overall and two rows
in each sub-window, and otherwise leaves the initial "unknown". -/
def calculateRatesAndPerformance (now : Int) (requiredPerDay requiredPerHour : Option ℚ)
    (rows : List Row) : Rates :=
  match rows with
  | [] => baseRates
  | [_] => baseRates
  | r :: r2 :: rest =>
    let latest := (r :: r2 :: rest).getLast (List.cons_ne_nil r (r2 :: rest))
    let earliest := r
    let timeDiffMs : ℚ := ((latest.timestamp - earliest.timestamp : Int) : ℚ)
    let timeDiffMinutes : ℚ := timeDiffMs / (1000 * 60)
    let timeDiffHours : ℚ := timeDiffMs / (1000 * 60 * 60)
    let timeDiffDays : ℚ := timeDiffMs / (1000 * 60 * 60 * 24)
    let timeDiffWeeks : ℚ := timeDiffDays / 7
    let signatureDiff : ℚ := ((latest.signatures - earliest.signatures : Int) : ℚ)
    let actual_per_minute :=
      if timeDiffMinutes > 0 then some (signatureDiff / timeDiffMinutes) else none
    let actual_per_hour :=
      if timeDiffMinutes > 0 then some (signatureDiff / timeDiffHours) else none
    let actual_per_day :=
      if timeDiffMinutes > 0 then some (signatureDiff / timeDiffDays) else none
    let actual_per_week :=
      if timeDiffMinutes > 0 then some (signatureDiff / timeDiffWeeks) else none
    let last24h := last24hOf now (r :: r2 :: rest)
    let prev24h := prev24hOf now (r :: r2 :: rest)
    let velocity_trend :=
      if (r :: r2 :: rest).length ≥ 4 then
        if last24h.length ≥ 2 ∧ prev24h.length ≥ 2 then
          classifyTrend (windowRate last24h) (windowRate prev24h)
        else "unknown"
      else "unknown"
    { actual_per_minute := actual_per_minute
      actual_per_hour := actual_per_hour
      actual_per_day := actual_per_day
      actual_per_week := actual_per_week
      on_track_daily := onTrackFlag requiredPerDay actual_per_day
      on_track_hourly := onTrackFlag requiredPerHour actual_per_hour
      velocity_trend := velocity_trend }

/-! ## Versioned store (src/index.js lines 82-205, src/unnamed/part_000
lines 61-98, src/unnamed/part_002 lines 66-101) -/

/-- Abstract outcome of the two GitHub API round-trips made by
updateGitHubFile: whether the GET for the current sha succeeded and what
sha it returned, and whether the conditional PUT succeeded. -/
structure GitHubEnv where
  getOk : Bool
  sha : String
  putOk : Bool
deriving Repr, DecidableEq

/-- One conditional PUT request, carrying the version token (sha) read
beforehand, when one was read. -/
structure PutRequest where
  sha : Option String
deriving Repr, DecidableEq

/-- updateGitHubFile (src/index.js lines 168-205): reads the sha once,
issues exactly one conditional PUT carrying it, and throws iff the PUT
response is not ok.  The second component is the list of PUT requests
issued, which the straight-line source fixes at one. -/
def updateGitHubFile (env : GitHubEnv) : Except String Unit × List PutRequest :=
  let sha : Option String := if env.getOk then some env.sha else none
  (if env.putOk then .ok () else .error "GitHub API failed", [{ sha := sha }])

/-- updateGitHubFile of the variant src/unnamed/part_000 lines 75-98: the
PUT response is never inspected, so the call cannot fail at all. -/
def updateGitHubFileV0 (env : GitHubEnv) : Unit × List PutRequest :=
  let sha : Option String := if env.getOk then some env.sha else none
  ((), [{ sha := sha }])

/-- Observable outcome of one of the save helpers. -/
inductive SaveOutcome
  | skippedNoCreds
  | saved
  | errorLogged
deriving Repr, DecidableEq

/-- saveLatestToGitHub (src/index.js lines 82-98): missing credentials
cause a logged skip; otherwise updateGitHubFile runs and any error it
throws is caught and logged, never rethrown to the caller. -/
def saveLatestToGitHub (creds : Bool) (env : GitHubEnv) : SaveOutcome :=
  if creds then
    match (updateGitHubFile env).1 with
    | .ok _ => .saved
    | .error _ => .errorLogged
  else .skippedNoCreds

/-- Parse result of the stored history blob as seen by
addToHistoryOnGitHub (src/index.js lines 115-128). -/
inductive HistoryBlob (α : Type)
  | missing
  | invalidJson
  | jsonNonArray
  | jsonArray (l : List α)

/-- Reading of the existing history (src/index.js lines 115-128): a 404
leaves the initial empty array, a JSON.parse throw is caught and resets to
the empty array, and a parsed value that is not an array is replaced by
the empty array; only a parsed array is kept. -/
def readExistingHistory {α : Type} : HistoryBlob α → List α
  | .missing => []
  | .invalidJson => []
  | .jsonNonArray => []
  | .jsonArray l => l

/-- History update of addToHistoryOnGitHub (src/index.js lines 130-137):
push the new record, then slice(-10000) when the length exceeds 10000,
which keeps the final 10000 elements, dropping from the front. -/
def historyAfterAppend {α : Type} (existing : List α) (newData : α) : List α :=
  let h := existing ++ [newData]
  if h.length > 10000 then h.drop (h.length - 10000) else h

/-- History update of saveToGitHub in the capped variant
(src/unnamed/part_002 lines 82-89): push, then splice(0, length - 8640)
when the length exceeds 8640, removing that many elements from the
front. -/
def completeAfterAppend {α : Type} (completeData : List α) (d : α) : List α :=
  let h := completeData ++ [d]
  if h.length > 8640 then h.drop (h.length - 8640) else h

/-- addToHistoryOnGitHub (src/index.js lines 101-147): missing
credentials skip; otherwise the blob is read and repaired, the record
appended and the cap applied, and updateGitHubFile runs with any thrown
error caught and logged.  The second component is the content handed to
the PUT when one was attempted. -/
def addToHistoryOnGitHub {α : Type} (creds : Bool) (blob : HistoryBlob α) (env : GitHubEnv)
    (newData : α) : SaveOutcome × Option (List α) :=
  if creds then
    let newHist := historyAfterAppend (readExistingHistory blob) newData
    match (updateGitHubFile env).1 with
    | .ok _ => (.saved, some newHist)
    | .error _ => (.errorLogged, some newHist)
  else (.skippedNoCreds, none)

/-- Contents of the backing store: the latest file and the history file. -/
structure StoreState (α : Type) where
  latestFile : Option α
  historyFile : List α
deriving Repr, DecidableEq

/-- Effect of one runMonitor cycle (src/index.js lines 13-79) on the
backing store, together with whether the cycle reached its success log.
After a successful fetch, Promise.all runs saveLatestToGitHub and
addToHistoryOnGitHub; each helper catches its own errors, so this stage
never rejects and the cycle always reaches the success log.  Each file
changes iff its own PUT succeeded and credentials were present. -/
def runMonitorModel {α : Type} (respOk creds : Bool) (envLatest envHistory : GitHubEnv)
    (s : StoreState α) (x : α) : StoreState α × Bool :=
  if respOk then
    let latestFile2 := if creds && envLatest.putOk then some x else s.latestFile
    let historyFile2 :=
      if creds && envHistory.putOk then historyAfterAppend s.historyFile x else s.historyFile
    ({ latestFile := latestFile2, historyFile := historyFile2 }, true)
  else (s, false)

/-! ## Run coordinator (src/unnamed/part_001 lines 174-314) -/

/-- Abstract outcome of the monitor body between the guard flag set and
the finally block: it either finishes or throws. -/
inductive BodyOutcome
  | ok
  | threw
deriving Repr, DecidableEq

/-- Report of one runMonitor invocation. -/
inductive RunReport
  | skipped
  | completed
  | errorCaught
deriving Repr, DecidableEq

/-- runMonitor guard of src/unnamed/part_001 lines 179-314: the
isMonitorRunning flag is tested at entry and, when set, the invocation
returns at once leaving the flag untouched; otherwise the flag is set,
the body runs inside try/catch, and the finally block clears the flag on
both the success and the throw path.  The result pairs the flag value
after the invocation with its report. -/
def runMonitorGuarded (isMonitorRunning : Bool) (body : BodyOutcome) : Bool × RunReport :=
  if isMonitorRunning then (isMonitorRunning, .skipped)
  else
    match body with
    | .ok => (false, .completed)
    | .threw => (false, .errorCaught)

/-! ## Theorems -/

/-- C3, counterexample: with remaining 1000000 and exactly ten days of
remaining time, the code computes required_per_week as 700000 via
(remaining / daysLeft) * 7, while the claimed per-unit rule
remaining / floor(remaining time in weeks) would give 1000000; the claim
that every unit, the week included, follows the per-unit floor rule is
therefore false at this input. -/
theorem c3_counterexample :
    (computeDeadlineStats 1000000 864000000).required_per_week = some 700000
  ∧ specRequiredPerUnit 604800000 1000000 864000000 = some 1000000
  ∧ (some (700000 : ℚ) : Option ℚ) ≠ (some 1000000 : Option ℚ) := by
  refine ⟨?_, ?_, by norm_num⟩
  · norm_num [computeDeadlineStats]
  · norm_num [specRequiredPerUnit]

/-- C3 (amended): the second, minute, hour and day figures each follow
the per-unit rule required = remaining / floor(remaining time in that
unit), undefined when that floor is non-positive or the deadline is
absent; the week figure however is derived from the day unit as
required_per_day * 7 (so it is defined iff daysLeft is positive, not iff
the week floor is positive).  At ten days and remaining 1000000 the day
figure is 100000 and the week figure 700000, and with the deadline in the
past every figure is undefined. -/
theorem c3_required_pace_per_unit_floor_week_from_days :
    (∀ remaining timeRemaining : Int,
        (computeDeadlineStats remaining timeRemaining).required_per_second
            = specRequiredPerUnit 1000 remaining timeRemaining
      ∧ (computeDeadlineStats remaining timeRemaining).required_per_minute
            = specRequiredPerUnit 60000 remaining timeRemaining
      ∧ (computeDeadlineStats remaining timeRemaining).required_per_hour
            = specRequiredPerUnit 3600000 remaining timeRemaining
      ∧ (computeDeadlineStats remaining timeRemaining).required_per_day
            = specRequiredPerUnit 86400000 remaining timeRemaining
      ∧ (computeDeadlineStats remaining timeRemaining).required_per_week
            = ((computeDeadlineStats remaining timeRemaining).required_per_day).map
                (fun q => q * 7))
  ∧ (∀ now remaining : Int, mkDeadlineStats none now remaining = none)
  ∧ (computeDeadlineStats 1000000 864000000).required_per_day = some 100000
  ∧ (computeDeadlineStats 1000000 864000000).required_per_week = some 700000
  ∧ computeDeadlineStats 1000000 (-1000)
      = { days_remaining := -1, required_per_week := none, required_per_day := none,
          required_per_hour := none, required_per_minute := none,
          required_per_second := none } := by
  refine ⟨?_, ?_, ?_, ?_, ?_⟩
  · intro remaining timeRemaining
    refine ⟨by norm_num [computeDeadlineStats, specRequiredPerUnit],
            by norm_num [computeDeadlineStats, specRequiredPerUnit],
            by norm_num [computeDeadlineStats, specRequiredPerUnit],
            by norm_num [computeDeadlineStats, specRequiredPerUnit], ?_⟩
    simp only [computeDeadlineStats]
    norm_num
  · intro now remaining
    simp [mkDeadlineStats]
  · norm_num [computeDeadlineStats]
  · norm_num [computeDeadlineStats]
  · norm_num [computeDeadlineStats]

/-- C2: appending one more record to a history holding exactly the
retention cap (8640 in the capped variant, 10000 in the high-frequency
variant) yields exactly the cap many records in which only the single
oldest record has been removed and the rest keep their relative order
(the result is the tail of the old sequence followed by the new record);
moreover both trims only ever remove from the front, since the result is
always a suffix of the appended sequence. -/
theorem c2_retention_trims_single_oldest_from_front {α : Type}
    (l8 : List α) (x : α) (h8 : l8.length = 8640)
    (l10 : List α) (y : α) (h10 : l10.length = 10000) :
    completeAfterAppend l8 x = l8.tail ++ [x]
  ∧ (completeAfterAppend l8 x).length = 8640
  ∧ historyAfterAppend l10 y = l10.tail ++ [y]
  ∧ (historyAfterAppend l10 y).length = 10000
  ∧ (∀ (m : List α) (z : α),
      completeAfterAppend m z <:+ m ++ [z] ∧ historyAfterAppend m z <:+ m ++ [z]) := by
  have e8 : completeAfterAppend l8 x = l8.tail ++ [x] := by
    have hlen : (l8 ++ [x]).length = 8641 := by simp [h8]
    simp only [completeAfterAppend, hlen]
    norm_num
    cases l8 with
    | nil => simp at h8
    | cons a t => simp
  have e10 : historyAfterAppend l10 y = l10.tail ++ [y] := by
    have hlen : (l10 ++ [y]).length = 10001 := by simp [h10]
    simp only [historyAfterAppend, hlen]
    norm_num
    cases l10 with
    | nil => simp at h10
    | cons a t => simp
  refine ⟨e8, ?_, e10, ?_, ?_⟩
  · rw [e8]; simp [List.length_tail, h8]
  · rw [e10]; simp [List.length_tail, h10]
  · intro m z
    constructor
    · simp only [completeAfterAppend]
      split
      · exact List.drop_suffix _ _
      · exact List.suffix_refl _
    · simp only [historyAfterAppend]
      split
      · exact List.drop_suffix _ _
      · exact List.suffix_refl _

/-- Witness for C2 at concrete cap-sized histories. -/
theorem c2_witness :
    (completeAfterAppend (List.replicate 8640 (0 : ℕ)) 1).length = 8640
  ∧ (historyAfterAppend (List.replicate 10000 (0 : ℕ)) 1).length = 10000 := by
  have h := c2_retention_trims_single_oldest_from_front
    (List.replicate 8640 (0 : ℕ)) 1 (by rw [List.length_replicate])
    (List.replicate 10000 (0 : ℕ)) 1 (by rw [List.length_replicate])
  exact ⟨h.2.1, h.2.2.2.1⟩

/-- C4: with at least two rows in the window and strictly positive
elapsed time between the earliest and the latest row, every observed rate
is the signature difference of those same two endpoints divided by the
elapsed time converted to the respective unit, with no per-unit flooring:
consequently the four figures are exact unit conversions of one another
(the map conjuncts).  With fewer than two rows the result is the all-null
base object, and with zero elapsed time all four figures are null. -/
theorem c4_observed_pace_same_endpoints_no_flooring :
    (∀ (now : Int) (req reqH : Option ℚ) (r r2 : Row) (rest : List Row) (latest : Row),
      (r :: r2 :: rest).getLast (List.cons_ne_nil r (r2 :: rest)) = latest →
      r.timestamp < latest.timestamp →
        (calculateRatesAndPerformance now req reqH (r :: r2 :: rest)).actual_per_minute
          = some (((latest.signatures - r.signatures : Int) : ℚ)
              / (((latest.timestamp - r.timestamp : Int) : ℚ) / 60000))
      ∧ (calculateRatesAndPerformance now req reqH (r :: r2 :: rest)).actual_per_hour
          = some (((latest.signatures - r.signatures : Int) : ℚ)
              / (((latest.timestamp - r.timestamp : Int) : ℚ) / 3600000))
      ∧ (calculateRatesAndPerformance now req reqH (r :: r2 :: rest)).actual_per_day
          = some (((latest.signatures - r.signatures : Int) : ℚ)
              / (((latest.timestamp - r.timestamp : Int) : ℚ) / 86400000))
      ∧ (calculateRatesAndPerformance now req reqH (r :: r2 :: rest)).actual_per_week
          = some (((latest.signatures - r.signatures : Int) : ℚ)
              / (((latest.timestamp - r.timestamp : Int) : ℚ) / 604800000)))
  ∧ (∀ (now : Int) (req reqH : Option ℚ) (rows : List Row),
        (calculateRatesAndPerformance now req reqH rows).actual_per_hour
          = ((calculateRatesAndPerformance now req reqH rows).actual_per_minute).map
              (fun q => q * 60)
      ∧ (calculateRatesAndPerformance now req reqH rows).actual_per_day
          = ((calculateRatesAndPerformance now req reqH rows).actual_per_hour).map
              (fun q => q * 24)
      ∧ (calculateRatesAndPerformance now req reqH rows).actual_per_week
          = ((calculateRatesAndPerformance now req reqH rows).actual_per_day).map
              (fun q => q * 7))
  ∧ (∀ (now : Int) (req reqH : Option ℚ) (rows : List Row), rows.length < 2 →
        calculateRatesAndPerformance now req reqH rows = baseRates)
  ∧ (∀ (now : Int) (req reqH : Option ℚ) (r r2 : Row) (rest : List Row) (latest : Row),
      (r :: r2 :: rest).getLast (List.cons_ne_nil r (r2 :: rest)) = latest →
      latest.timestamp = r.timestamp →
        (calculateRatesAndPerformance now req reqH (r :: r2 :: rest)).actual_per_minute = none
      ∧ (calculateRatesAndPerformance now req reqH (r :: r2 :: rest)).actual_per_hour = none
      ∧ (calculateRatesAndPerformance now req reqH (r :: r2 :: rest)).actual_per_day = none
      ∧ (calculateRatesAndPerformance now req reqH (r :: r2 :: rest)).actual_per_week = none) := by
  refine ⟨?_, ?_, ?_, ?_⟩
  · intro now req reqH r r2 rest latest hl hpos
    subst hl
    have hΔ : (0 : ℚ)
        < ((((r :: r2 :: rest).getLast (List.cons_ne_nil r (r2 :: rest))).timestamp
            - r.timestamp : Int) : ℚ) := by
      exact_mod_cast Int.sub_pos.mpr hpos
    have hc : (0 : ℚ)
        < ((((r :: r2 :: rest).getLast (List.cons_ne_nil r (r2 :: rest))).timestamp
            - r.timestamp : Int) : ℚ) / (1000 * 60) := div_pos hΔ (by norm_num)
    refine ⟨?_, ?_, ?_, ?_⟩
    · simp only [calculateRatesAndPerformance, if_pos hc, Option.some.injEq]
      norm_num
    · simp only [calculateRatesAndPerformance, if_pos hc, Option.some.injEq]
      norm_num
    · simp only [calculateRatesAndPerformance, if_pos hc, Option.some.injEq]
      norm_num
    · simp only [calculateRatesAndPerformance, if_pos hc, Option.some.injEq]
      rw [div_div]
      norm_num
  · intro now req reqH rows
    rcases rows with _ | ⟨a, _ | ⟨b, t⟩⟩
    · simp [calculateRatesAndPerformance, baseRates]
    · simp [calculateRatesAndPerformance, baseRates]
    · by_cases hc : (0 : ℚ)
          < ((((a :: b :: t).getLast (List.cons_ne_nil a (b :: t))).timestamp
              - a.timestamp : Int) : ℚ) / (1000 * 60)
      · refine ⟨?_, ?_, ?_⟩ <;>
          · simp only [calculateRatesAndPerformance, if_pos hc, Option.map_some',
              Option.some.injEq]
            ring
      · refine ⟨?_, ?_, ?_⟩ <;>
          · simp only [calculateRatesAndPerformance, if_neg hc, Option.map_none']
  · intro now req reqH rows h
    rcases rows with _ | ⟨a, _ | ⟨b, t⟩⟩
    · rfl
    · rfl
    · simp at h; omega
  · intro now req reqH r r2 rest latest hl hz
    subst hl
    have h0 : ((((r :: r2 :: rest).getLast (List.cons_ne_nil r (r2 :: rest))).timestamp
        - r.timestamp : Int) : ℚ) = 0 := by
      rw [hz]; simp
    have hc : ¬ ((0 : ℚ)
        < ((((r :: r2 :: rest).getLast (List.cons_ne_nil r (r2 :: rest))).timestamp
            - r.timestamp : Int) : ℚ) / (1000 * 60)) := by
      rw [h0]; norm_num
    refine ⟨?_, ?_, ?_, ?_⟩ <;>
      · simp only [calculateRatesAndPerformance, if_neg hc]

/-- Witness for C4: the history [(t0, 1000), (t0 plus one hour, 1600)]
yields 600 per hour and 10 per minute; a one-row window and a zero
elapsed window yield null figures. -/
theorem c4_witness :
    (calculateRatesAndPerformance 0 none none
        [{ signatures := 1000, timestamp := 0 },
         { signatures := 1600, timestamp := 3600000 }]).actual_per_hour = some 600
  ∧ (calculateRatesAndPerformance 0 none none
        [{ signatures := 1000, timestamp := 0 },
         { signatures := 1600, timestamp := 3600000 }]).actual_per_minute = some 10
  ∧ calculateRatesAndPerformance 0 none none [{ signatures := 1000, timestamp := 0 }]
      = baseRates
  ∧ (calculateRatesAndPerformance 0 none none
        [{ signatures := 1000, timestamp := 0 },
         { signatures := 1600, timestamp := 0 }]).actual_per_hour = none := by
  have hA := c4_observed_pace_same_endpoints_no_flooring.1 0 none none
    { signatures := 1000, timestamp := 0 } { signatures := 1600, timestamp := 3600000 } []
    { signatures := 1600, timestamp := 3600000 } rfl (by norm_num)
  have hC := c4_observed_pace_same_endpoints_no_flooring.2.2.1 0 none none
    [{ signatures := 1000, timestamp := 0 }] (by norm_num)
  have hD := c4_observed_pace_same_endpoints_no_flooring.2.2.2 0 none none
    { signatures := 1000, timestamp := 0 } { signatures := 1600, timestamp := 0 } []
    { signatures := 1600, timestamp := 0 } rfl rfl
  refine ⟨?_, ?_, hC, hD.2.1⟩
  · rw [hA.2.1]; norm_num
  · rw [hA.1]; norm_num

/-- Filtering one list by two mutually exclusive predicates yields at
most as many elements in total as the list holds. -/
lemma length_filter_add_length_filter_le {α : Type} (p q : α → Bool) (l : List α)
    (hpq : ∀ a, p a = true → q a = false) :
    (l.filter p).length + (l.filter q).length ≤ l.length := by
  induction l with
  | nil => simp
  | cons a t ih =>
    cases hp : p a with
    | true =>
      have hq := hpq a hp
      simp [List.filter_cons, hp, hq]
      omega
    | false =>
      cases hq : q a with
      | true =>
        simp [List.filter_cons, hp, hq]
        omega
      | false =>
        simp [List.filter_cons, hp, hq]
        omega

/-- The two 24-hour sub-windows are disjoint, so together they never
exceed the seven-day window. -/
lemma subwindow_lengths_le (now : Int) (rows : List Row) :
    (last24hOf now rows).length + (prev24hOf now rows).length ≤ rows.length := by
  refine length_filter_add_length_filter_le _ _ rows ?_
  intro r h
  simp only [decide_eq_true_eq] at h
  simp only [decide_eq_false_iff_not]
  omega

/-- C5, counterexample: sub-window hourly rates exactly 110 and 100 are
classified steady, not accelerating, because the source compares with a
strict greater-than against previous * 1.1 and 110 is not greater than
110. -/
theorem c5_counterexample :
    (calculateRatesAndPerformance 172800000 none none
      [{ signatures := 0, timestamp := 0 }, { signatures := 100, timestamp := 3600000 },
       { signatures := 500, timestamp := 86400000 },
       { signatures := 610, timestamp := 90000000 }]).velocity_trend = "steady"
  ∧ ("steady" : String) ≠ "accelerating" := by
  constructor
  · norm_num [calculateRatesAndPerformance, last24hOf, prev24hOf, windowRate,
      classifyTrend, List.getLast]
  · decide

/-- C5 (amended): whenever both 24-hour sub-windows hold at least two
rows the trend is classifyTrend of the two sub-window hourly rates, where
the comparisons are strict: accelerating only when recent exceeds 1.10
times previous, slowing only when recent is below 0.90 times previous,
steady otherwise, so the boundary pairs (110, 100) and (90, 100) are
steady while (111, 100) accelerates and (89, 100) slows; when either
sub-window holds fewer than two rows the trend is unknown. -/
theorem c5_trend_strict_thresholds :
    (∀ (now : Int) (req reqH : Option ℚ) (rows : List Row),
      2 ≤ (last24hOf now rows).length → 2 ≤ (prev24hOf now rows).length →
      (calculateRatesAndPerformance now req reqH rows).velocity_trend
        = classifyTrend (windowRate (last24hOf now rows)) (windowRate (prev24hOf now rows)))
  ∧ (∀ (now : Int) (req reqH : Option ℚ) (rows : List Row),
      (last24hOf now rows).length < 2 ∨ (prev24hOf now rows).length < 2 →
      (calculateRatesAndPerformance now req reqH rows).velocity_trend = "unknown")
  ∧ classifyTrend 110 100 = "steady"
  ∧ classifyTrend 90 100 = "steady"
  ∧ classifyTrend 111 100 = "accelerating"
  ∧ classifyTrend 89 100 = "slowing"
  ∧ classifyTrend 95 100 = "steady" := by
  refine ⟨?_, ?_, ?_, ?_, ?_, ?_, ?_⟩
  · intro now req reqH rows h1 h2
    rcases rows with _ | ⟨a, _ | ⟨b, t⟩⟩
    · simp [last24hOf] at h1
    · have hle := subwindow_lengths_le now [a]
      simp only [List.length_cons, List.length_nil] at hle
      omega
    · have hle := subwindow_lengths_le now (a :: b :: t)
      have h4 : (a :: b :: t).length ≥ 4 := by
        simp only [List.length_cons] at hle ⊢
        omega
      simp only [calculateRatesAndPerformance]
      rw [if_pos h4, if_pos ⟨h1, h2⟩]
  · intro now req reqH rows h
    rcases rows with _ | ⟨a, _ | ⟨b, t⟩⟩
    · rfl
    · rfl
    · simp only [calculateRatesAndPerformance]
      by_cases h4 : (a :: b :: t).length ≥ 4
      · rw [if_pos h4, if_neg ?_]
        omega
      · rw [if_neg h4]
  · norm_num [classifyTrend]
  · norm_num [classifyTrend]
  · norm_num [classifyTrend]
  · norm_num [classifyTrend]
  · norm_num [classifyTrend]

/-- Witness for C5 applying both quantified parts: a pair of sub-windows
with hourly rates 111 and 100 is accelerating, and a window with a
single-row prior sub-window is unknown. -/
theorem c5_witness :
    (calculateRatesAndPerformance 172800000 none none
      [{ signatures := 0, timestamp := 0 }, { signatures := 100, timestamp := 3600000 },
       { signatures := 500, timestamp := 86400000 },
       { signatures := 611, timestamp := 90000000 }]).velocity_trend = "accelerating"
  ∧ (calculateRatesAndPerformance 172800000 none none
      [{ signatures := 0, timestamp := 0 }, { signatures := 500, timestamp := 86400000 },
       { signatures := 611, timestamp := 90000000 }]).velocity_trend = "unknown" := by
  constructor
  · have h := c5_trend_strict_thresholds.1 172800000 none none
      [{ signatures := 0, timestamp := 0 }, { signatures := 100, timestamp := 3600000 },
       { signatures := 500, timestamp := 86400000 },
       { signatures := 611, timestamp := 90000000 }]
      (by norm_num [last24hOf]) (by norm_num [prev24hOf])
    rw [h]
    norm_num [last24hOf, prev24hOf, windowRate, classifyTrend, List.getLast]
  · have h := c5_trend_strict_thresholds.2.1 172800000 none none
      [{ signatures := 0, timestamp := 0 }, { signatures := 500, timestamp := 86400000 },
       { signatures := 611, timestamp := 90000000 }]
      (by right; norm_num [prev24hOf])
    exact h

/-- C6, counterexample: a window whose two endpoints carry the same count
one hour apart yields the defined observed rate 0 per day; with a defined
required rate of 100 per day the claim demands the boolean false, but the
JavaScript truthiness guard leaves the daily flag null because 0 is
falsy. -/
theorem c6_counterexample :
    (calculateRatesAndPerformance 3600000 (some 100) (some 100)
      [{ signatures := 1000, timestamp := 0 },
       { signatures := 1000, timestamp := 3600000 }]).actual_per_day = some 0
  ∧ (calculateRatesAndPerformance 3600000 (some 100) (some 100)
      [{ signatures := 1000, timestamp := 0 },
       { signatures := 1000, timestamp := 3600000 }]).on_track_daily = none
  ∧ (none : Option Bool) ≠ some false := by
  refine ⟨?_, ?_, by decide⟩
  · norm_num [calculateRatesAndPerformance, List.getLast]
  · norm_num [calculateRatesAndPerformance, onTrackFlag, List.getLast]

/-- C6 (amended): each on-track flag is the boolean of observed greater
or equal required only when both sides are defined and both are non-zero
(the JavaScript truthiness guard); it is null when either side is
undefined and also when either side equals zero, so a defined observed
rate of 0 leaves the flag null rather than making it false.  The daily
flag pairs the daily figures and the hourly flag the hourly figures,
independently. -/
theorem c6_on_track_truthiness :
    (∀ rq ac : ℚ, rq ≠ 0 → ac ≠ 0 →
        onTrackFlag (some rq) (some ac) = some (decide (ac ≥ rq)))
  ∧ (∀ rq : ℚ, onTrackFlag (some rq) (some 0) = none
      ∧ onTrackFlag (some 0) (some rq) = none
      ∧ onTrackFlag none (some rq) = none
      ∧ onTrackFlag (some rq) none = none
      ∧ onTrackFlag none none = none)
  ∧ (∀ (now : Int) (req reqH : Option ℚ) (rows : List Row),
        (calculateRatesAndPerformance now req reqH rows).on_track_daily
          = onTrackFlag req (calculateRatesAndPerformance now req reqH rows).actual_per_day
      ∧ (calculateRatesAndPerformance now req reqH rows).on_track_hourly
          = onTrackFlag reqH
              (calculateRatesAndPerformance now req reqH rows).actual_per_hour) := by
  refine ⟨?_, ?_, ?_⟩
  · intro rq ac hrq hac
    simp [onTrackFlag, hrq, hac]
  · intro rq
    refine ⟨by simp [onTrackFlag], by simp [onTrackFlag], rfl, ?_, rfl⟩
    simp [onTrackFlag]
  · intro now req reqH rows
    rcases rows with _ | ⟨a, _ | ⟨b, t⟩⟩
    · exact ⟨by cases req <;> rfl, by cases reqH <;> rfl⟩
    · exact ⟨by cases req <;> rfl, by cases reqH <;> rfl⟩
    · exact ⟨rfl, rfl⟩

/-- Witness for C6: with required 100 and observed 150, both non-zero,
the flag is the boolean true. -/
theorem c6_witness :
    onTrackFlag (some 100) (some 150) = some true := by
  have h := c6_on_track_truthiness.1 100 150 (by norm_num) (by norm_num)
  rw [h]
  simp only [Option.some.injEq, decide_eq_true_eq]
  norm_num

/-- C1, counterexample: with credentials present and a failing PUT, the
write error is raised inside updateGitHubFile but saveLatestToGitHub
catches it and returns normally with only a log, exactly one PUT is ever
attempted (no retry with a fresh token), and the whole cycle leaves the
store unchanged while still reaching its success log: the record is
silently dropped instead of a StoreError reaching the caller. -/
theorem c1_counterexample :
    (updateGitHubFile { getOk := true, sha := "abc", putOk := false }).1
      = Except.error "GitHub API failed"
  ∧ saveLatestToGitHub true { getOk := true, sha := "abc", putOk := false }
      = SaveOutcome.errorLogged
  ∧ (updateGitHubFile { getOk := true, sha := "abc", putOk := false }).2.length = 1
  ∧ runMonitorModel true true { getOk := true, sha := "abc", putOk := false }
      { getOk := true, sha := "abc", putOk := false }
      ({ latestFile := none, historyFile := [] } : StoreState ℕ) 7
      = ({ latestFile := none, historyFile := [] }, true) :=
  ⟨rfl, rfl, rfl, rfl⟩

/-- C1 (amended): a store write failure is never surfaced to runMonitor:
updateGitHubFile issues exactly one conditional PUT (a stale-token
conflict is never retried, in the part_000 variant the PUT response is
not even inspected), saveLatestToGitHub catches the thrown error and
merely logs it, and the monitor cycle reaches its success log regardless
of the write outcomes, so a failed write silently drops the fetched
record. -/
theorem c1_write_failures_swallowed_and_unretried :
    (∀ env : GitHubEnv, (updateGitHubFile env).2.length = 1)
  ∧ (∀ env : GitHubEnv, (updateGitHubFileV0 env).2.length = 1)
  ∧ (∀ (g : Bool) (s : String),
      saveLatestToGitHub true { getOk := g, sha := s, putOk := false }
        = SaveOutcome.errorLogged)
  ∧ (∀ (α : Type) (creds : Bool) (envL envH : GitHubEnv) (st : StoreState α) (x : α),
      (runMonitorModel true creds envL envH st x).2 = true) :=
  ⟨fun _ => rfl, fun _ => rfl, fun _ _ => rfl, fun _ _ _ _ _ _ => rfl⟩

/-- C7: a run invocation arriving while the flag is set is a skip no-op
that leaves the flag untouched and reports skipped; an invocation
entering from the idle state never reports skipped (exactly one of two
overlapping invocations executes), and whatever the body does, succeed or
throw, the flag is false again afterwards thanks to the finally block. -/
theorem c7_coordinator_skip_and_reset :
    (∀ b : BodyOutcome, runMonitorGuarded true b = (true, RunReport.skipped))
  ∧ (∀ b : BodyOutcome, (runMonitorGuarded false b).1 = false)
  ∧ (∀ b : BodyOutcome, (runMonitorGuarded false b).2 ≠ RunReport.skipped) := by
  refine ⟨fun b => rfl, fun b => ?_, fun b => ?_⟩
  · cases b <;> rfl
  · cases b <;> decide

/-- C8, counterexample: a 2xx counter response carrying the invalid
payload of a negative count is accepted unchanged by the fetch stage (no
UpstreamDataInvalid failure exists in the code), and the invalid fields
are normalized into the persisted record verbatim. -/
theorem c8_counterexample :
    fetchStage true { signatureCount := -5, goal := 100 }
      = Except.ok { signatureCount := -5, goal := 100 }
  ∧ mkStatsData { signatureCount := -5, goal := 100 } none 0
      = { signatures := -5, goal := 100, progress_percent := -5, deadlineStats := none } := by
  refine ⟨rfl, ?_⟩
  norm_num [mkStatsData, mkDeadlineStats, StatsData.mk.injEq]

/-- C8 (amended): the fetch stage validates nothing about the payload:
every payload of a 2xx response is accepted as is and its count and goal
are copied verbatim into the normalized record, while only a non-2xx
response fails the cycle. -/
theorem c8_fetch_accepts_any_payload :
    (∀ payload : ProgressData, fetchStage true payload = Except.ok payload)
  ∧ (∀ payload : ProgressData,
      fetchStage false payload = Except.error "Progress API failed")
  ∧ (∀ (payload : ProgressData) (deadline : Option Int) (now : Int),
      (mkStatsData payload deadline now).signatures = payload.signatureCount
      ∧ (mkStatsData payload deadline now).goal = payload.goal) :=
  ⟨fun _ => rfl, fun _ => rfl, fun _ _ _ => ⟨rfl, rfl⟩⟩

/-- Appending always leaves the new record at the tail, because the cap
only ever drops from the front. -/
lemma getLast_historyAfterAppend {α : Type} (l : List α) (x : α) :
    (historyAfterAppend l x).getLast? = some x := by
  simp only [historyAfterAppend]
  have hlen : (l ++ [x]).length = l.length + 1 := by simp
  rw [hlen]
  split
  · rename_i h
    rw [List.drop_append_of_le_length (by omega)]
    simp [List.getLast?_concat]
  · simp [List.getLast?_concat]

/-- C9, counterexample: a run in which the latest-file PUT fails while
the history PUT succeeds is still reported successful (both helpers
swallow their errors), leaving the stored latest record different from
the tail of the stored history. -/
theorem c9_counterexample :
    (runMonitorModel true true { getOk := true, sha := "h", putOk := false }
        { getOk := true, sha := "h", putOk := true }
        ({ latestFile := some 0, historyFile := [0] } : StoreState ℕ) 1).2 = true
  ∧ ((runMonitorModel true true { getOk := true, sha := "h", putOk := false }
        { getOk := true, sha := "h", putOk := true }
        ({ latestFile := some 0, historyFile := [0] } : StoreState ℕ) 1).1).latestFile
      = some 0
  ∧ ((runMonitorModel true true { getOk := true, sha := "h", putOk := false }
        { getOk := true, sha := "h", putOk := true }
        ({ latestFile := some 0, historyFile := [0] } : StoreState ℕ) 1).1).historyFile.getLast?
      = some 1
  ∧ (some (0 : ℕ)) ≠ some 1 :=
  ⟨rfl, rfl, rfl, by decide⟩

/-- C9 (amended): the latest record equals the tail of the history only
when both PUTs succeed in the run; the run itself is reported successful
whenever the fetch succeeded, regardless of either write outcome, so the
two files are not kept mutually consistent by the code. -/
theorem c9_consistency_only_when_both_writes_succeed :
    (∀ (α : Type) (gL gH : Bool) (sL sH : String) (s : StoreState α) (x : α),
        ((runMonitorModel true true { getOk := gL, sha := sL, putOk := true }
            { getOk := gH, sha := sH, putOk := true } s x).1).latestFile = some x
      ∧ ((runMonitorModel true true { getOk := gL, sha := sL, putOk := true }
            { getOk := gH, sha := sH, putOk := true } s x).1).historyFile.getLast?
          = some x)
  ∧ (∀ (α : Type) (creds : Bool) (envL envH : GitHubEnv) (s : StoreState α) (x : α),
        (runMonitorModel true creds envL envH s x).2 = true
      ∧ (runMonitorModel false creds envL envH s x).2 = false) := by
  refine ⟨?_, fun α creds envL envH s x => ⟨rfl, rfl⟩⟩
  intro α gL gH sL sH s x
  exact ⟨rfl, getLast_historyAfterAppend s.historyFile x⟩

/-- C10: a stored history blob holding valid JSON that is not an array is
silently replaced by the empty history, so the next successful append
writes back the one-element array of just the new record, discarding the
previous contents without any error. -/
theorem c10_nonarray_history_reset :
    (∀ α : Type, readExistingHistory (HistoryBlob.jsonNonArray : HistoryBlob α) = [])
  ∧ (∀ (α : Type) (g : Bool) (sh : String) (x : α),
      addToHistoryOnGitHub true HistoryBlob.jsonNonArray
          { getOk := g, sha := sh, putOk := true } x
        = (SaveOutcome.saved, some [x])) :=
  ⟨fun _ => rfl, fun _ _ _ _ => rfl⟩

end SKG
